import Mathlib

/-!
Shallow embedding of the two services in
`src/001-prevent-race-conditions` (`01-blog-views/worker.py` and
`02-game-shop/worker.py`).

The persistent store of each service is a single table, modelled as a
`List` of rows.  Each SQL statement issued by a handler (an `UPDATE` built
by Tortoise's `QuerySet.update`, a row fetch built by `get`, a row
insertion built by `Model.create`) is one atomic store operation on that
list; Python exceptions raised by the ORM are modelled with `Except`.
-/

/-- Errors raised by the ORM / store as they can reach the handlers:
`doesNotExist` (Tortoise `DoesNotExist`, raised by `get` on an empty
result), `multipleObjectsReturned` (raised by `get` on more than one
result), `integrityError` (raised by `create` on a primary-key conflict),
and `fieldError key` (Tortoise `FieldError`, raised when a filter kwarg
key is not one of the model's generated filter parameters). -/
inductive OrmError where
  | doesNotExist
  | multipleObjectsReturned
  | integrityError
  | fieldError (key : String)
deriving DecidableEq

namespace BlogViews

/-- A row of the `posts` table (`class Post(Model)` in
`01-blog-views/worker.py`): integer primary key `id`, `title`, `content`,
and the big-integer counter `views`. -/
structure Post where
  id : Int
  title : String
  content : String
  views : Int
deriving DecidableEq

/-- The `posts` table. -/
abbrev DB := List Post

/-- Tortoise `Post.create(id=..., title=..., content=..., views=...)`:
inserts a fresh row, raising `IntegrityError` when a row with the same
primary key already exists (the table has a uniqueness constraint on
`id`). -/
def Post.create (db : DB) (id : Int) (title content : String)
    (views : Int) : Except OrmError DB :=
  if db.any (fun p => p.id == id) then .error .integrityError
  else .ok (db ++ [⟨id, title, content, views⟩])

/-- The startup body of `lifespan` in `01-blog-views/worker.py`
(lines 23-28): try to create the test blog post
(`id=1, title="Example blog post", content="Hello! This is a blog post",
views=0`); any exception is swallowed by the bare `except Exception`
branch, which only prints.  The function being total into `DB` reflects
that no exception escapes this block. -/
def lifespanInit (db : DB) : DB :=
  match Post.create db 1 "Example blog post" "Hello! This is a blog post" 0 with
  | .ok db' => db'
  | .error _ => db

/-- The store contents after first startup on an empty database. -/
def initialPosts : DB := lifespanInit []

/-- The single atomic statement
`Post.filter(id=post_id).update(views=F("views") + 1)`:
`UPDATE posts SET views = views + 1 WHERE id = post_id`, evaluated
entirely by the store against each row's current value. -/
def incrementViews (db : DB) (post_id : Int) : DB :=
  db.map (fun p => if p.id == post_id then { p with views := p.views + 1 } else p)

/-- Tortoise `Post.filter(id=post_id).get()`: returns the unique matching
row, raising `DoesNotExist` when there is none and
`MultipleObjectsReturned` when there are several. -/
def getOne (db : DB) (post_id : Int) : Except OrmError Post :=
  match db.filter (fun p => p.id == post_id) with
  | [] => .error .doesNotExist
  | [p] => .ok p
  | _ => .error .multipleObjectsReturned

/-- The handler `view_post` (`01-blog-views/worker.py` lines 92-96):
first the atomic increment `UPDATE`, then a separate fetch of the row,
whose `views` field is returned as `current_views`.  An exception raised
by the fetch propagates (`Except.map`); the store keeps the state left by
the `UPDATE`. -/
def view_post (db : DB) (post_id : Int) : DB × Except OrmError Int :=
  let db' := incrementViews db post_id
  (db', (getOne db' post_id).map Post.views)

/-- The read handler `get_post` (lines 46-54): a pure fetch, no
mutation. -/
def get_post (db : DB) (post_id : Int) : Except OrmError Post :=
  getOne db post_id

/-- Running `view_post` `n` times sequentially against the same store
(each call's fetch result discarded, as in the spec's sequential-calls
scenario). -/
def viewPostN : Nat → DB → Int → DB
  | 0, db, _ => db
  | n + 1, db, post_id => viewPostN n (view_post db post_id).1 post_id

/-- Atomic store statements issued by the blog service, used to model
interleavings of concurrent requests: a `view_post` request issues its
`UPDATE` statement (`upd`) and then its fetch (`fetch`); `get_post`
issues a `fetch`.  The store executes each statement atomically, so a
concurrent execution of several requests is exactly some sequence of
these statements. -/
inductive BlogOp where
  | upd (post_id : Int)
  | fetch (post_id : Int)
deriving DecidableEq

/-- Effect of one atomic statement on the store: only the `UPDATE`
mutates. -/
def applyBlogOp (db : DB) : BlogOp → DB
  | .upd post_id => incrementViews db post_id
  | .fetch _ => db

/-- Store state after executing a sequence (interleaving) of atomic
statements. -/
def runBlogOps (db : DB) (ops : List BlogOp) : DB :=
  ops.foldl applyBlogOp db

/-- The stored `views` value of the row with the given id, if present. -/
def viewsOf (db : DB) (post_id : Int) : Option Int :=
  (db.find? (fun p => p.id == post_id)).map Post.views

end BlogViews

namespace GameShop

/-- A row of the `players` table (`class Player(Model)` in
`02-game-shop/worker.py`): integer primary key `id`, `name`, the balance
`money` and the counter `level`. -/
structure Player where
  id : Int
  name : String
  money : Int
  level : Int
deriving DecidableEq

/-- The `players` table. -/
abbrev DB := List Player

/-- The fixed upgrade cost (`COST = 150`, line 60). -/
def COST : Int := 150

/-- Tortoise `Player.create(id=..., name=..., money=..., level=...)`:
inserts a fresh row, raising `IntegrityError` on a primary-key
conflict. -/
def Player.create (db : DB) (id : Int) (name : String)
    (money level : Int) : Except OrmError DB :=
  if db.any (fun p => p.id == id) then .error .integrityError
  else .ok (db ++ [⟨id, name, money, level⟩])

/-- The startup body of `lifespan` in `02-game-shop/worker.py`
(lines 23-28): try to create the test user
(`id=1, name="Alice", money=1000, level=1`); any exception is swallowed
by the bare `except Exception` branch. -/
def lifespanInit (db : DB) : DB :=
  match Player.create db 1 "Alice" 1000 1 with
  | .ok db' => db'
  | .error _ => db

/-- The store contents after first startup on an empty database. -/
def initialPlayers : DB := lifespanInit []

/-- Tortoise resolves each filter kwarg `key=value` against the model's
generated filter parameters: a bare field name means equality, and
`field ++ "__" ++ lookup` (double underscore) means a comparison lookup
such as `money__gte`.  This table lists the parameters for the integer
fields of `Player` with the standard comparison lookups; a key matching
none of the generated parameters is unknown. -/
def resolveParam : String → Option (Player → Int → Bool)
  | "id" => some fun p v => p.id == v
  | "money" => some fun p v => p.money == v
  | "level" => some fun p v => p.level == v
  | "id__gte" => some fun p v => decide (v ≤ p.id)
  | "money__gte" => some fun p v => decide (v ≤ p.money)
  | "level__gte" => some fun p v => decide (v ≤ p.level)
  | "id__gt" => some fun p v => decide (v < p.id)
  | "money__gt" => some fun p v => decide (v < p.money)
  | "level__gt" => some fun p v => decide (v < p.level)
  | "id__lte" => some fun p v => decide (p.id ≤ v)
  | "money__lte" => some fun p v => decide (p.money ≤ v)
  | "level__lte" => some fun p v => decide (p.level ≤ v)
  | "id__lt" => some fun p v => decide (p.id < v)
  | "money__lt" => some fun p v => decide (p.money < v)
  | "level__lt" => some fun p v => decide (p.level < v)
  | _ => none

/-- One filter kwarg as written in a `filter(...)` call: the keyword
string and its integer value. -/
structure Kwarg where
  key : String
  val : Int

/-- Tortoise's resolution of a conjunction of filter kwargs into a row
predicate.  A key that is not a generated filter parameter raises
`FieldError` ("Unknown filter param") when the queryset is executed,
before any SQL reaches the store. -/
def resolveFilter : List Kwarg → Except OrmError (Player → Bool)
  | [] => .ok fun _ => true
  | k :: ks =>
    match resolveParam k.key with
    | none => .error (.fieldError k.key)
    | some pred =>
      match resolveFilter ks with
      | .error e => .error e
      | .ok rest => .ok fun p => pred p k.val && rest p

/-- The store-evaluated update of the upgrade statement:
`SET level = level + 1, money = money - COST` applied to every row
matched by the predicate; returns the new table and the count of rows
affected. -/
def updatePlayers (db : DB) (pred : Player → Bool) : DB × Nat :=
  (db.map (fun p => if pred p then { p with level := p.level + 1, money := p.money - COST } else p),
   (db.filter pred).length)

/-- Tortoise `Player.get(id=player_id)` (and
`Player.filter(id=player_id).get()`): the unique matching row, raising
`DoesNotExist` or `MultipleObjectsReturned` otherwise. -/
def getOne (db : DB) (player_id : Int) : Except OrmError Player :=
  match db.filter (fun p => p.id == player_id) with
  | [] => .error .doesNotExist
  | [p] => .ok p
  | _ => .error .multipleObjectsReturned

/-- The structured responses of the upgrade handler: the success payload
(`user_id`, `money`, `level`) or the error response reporting
"Not enough money". -/
inductive UpgradeResponse where
  | success (user_id money level : Int)
  | notEnoughMoney
deriving DecidableEq

/-- The handler `upgrade_level` (`02-game-shop/worker.py` lines 86-103),
embedded as written in the source: the update's filter kwargs are
`id=player_id` and `money_gte=COST` — with a single underscore, exactly
as on line 92.  Resolution of the filter happens when the awaited update
executes; a `FieldError` raised there propagates out of the handler with
the store untouched.  Otherwise the atomic conditional `UPDATE` runs,
and a zero affected-row count yields the "Not enough money" response,
while a nonzero count leads to the follow-up `Player.get` whose row is
returned. -/
def upgrade_level (db : DB) (player_id : Int) : DB × Except OrmError UpgradeResponse :=
  match resolveFilter [⟨"id", player_id⟩, ⟨"money_gte", COST⟩] with
  | .error e => (db, .error e)
  | .ok pred =>
    let updated := updatePlayers db pred
    if updated.2 == 0 then (updated.1, .ok .notEnoughMoney)
    else
      (updated.1,
       (getOne updated.1 player_id).map fun p => .success p.id p.money p.level)

/-- The read handler `get_info` (lines 49-52): a pure fetch. -/
def get_info (db : DB) (player_id : Int) : Except OrmError Player :=
  getOne db player_id

/-- Whether an upgrade call returned the success payload (a debit that
actually went through). -/
def isSuccess : Except OrmError UpgradeResponse → Bool
  | .ok (.success _ _ _) => true
  | _ => false

/-- Running `upgrade_level` `n` times sequentially against the same
store, counting the calls that succeeded. -/
def runUpgrades : Nat → DB → Int → DB × Nat
  | 0, db, _ => (db, 0)
  | n + 1, db, player_id =>
    let r := upgrade_level db player_id
    let rest := runUpgrades n r.1 player_id
    (rest.1, (if isSuccess r.2 then 1 else 0) + rest.2)

/-- The stored `money` of the row with the given id, if present. -/
def moneyOf (db : DB) (player_id : Int) : Option Int :=
  (db.find? (fun p => p.id == player_id)).map Player.money

/-- The stored `level` of the row with the given id, if present. -/
def levelOf (db : DB) (player_id : Int) : Option Int :=
  (db.find? (fun p => p.id == player_id)).map Player.level

end GameShop

namespace BlogViews

/-- Auxiliary: the increment statement preserves every row's id, so the
first row matching an id after the statement is the (possibly
incremented) first row matching it before. -/
theorem find?_incrementViews (db : DB) (t pid : Int) :
    (incrementViews db t).find? (fun p => p.id == pid)
      = (db.find? (fun p => p.id == pid)).map
          (fun p => if p.id == t then { p with views := p.views + 1 } else p) := by
  induction db with
  | nil => rfl
  | cons p db ih =>
    have hcons : incrementViews (p :: db) t
        = (if p.id == t then { p with views := p.views + 1 } else p)
            :: incrementViews db t := rfl
    rw [hcons]
    by_cases ht : p.id = t
    · rw [if_pos (by rw [beq_iff_eq]; exact ht)]
      by_cases hp : p.id = pid
      · rw [List.find?_cons_of_pos _ (by simp [hp]),
          List.find?_cons_of_pos _ (by simp [hp])]
        simp [ht]
      · rw [List.find?_cons_of_neg _ (by simp [hp]),
          List.find?_cons_of_neg _ (by simp [hp])]
        exact ih
    · rw [if_neg (by rw [beq_iff_eq]; exact ht)]
      by_cases hp : p.id = pid
      · rw [List.find?_cons_of_pos _ (by simp [hp]),
          List.find?_cons_of_pos _ (by simp [hp])]
        simp [ht]
      · rw [List.find?_cons_of_neg _ (by simp [hp]),
          List.find?_cons_of_neg _ (by simp [hp])]
        exact ih

/-- Auxiliary: the stored views of any row after one increment statement,
as a function of its stored views before it. -/
theorem viewsOf_incrementViews (db : DB) (t pid : Int) :
    viewsOf (incrementViews db t) pid
      = (viewsOf db pid).map (fun v => v + if t = pid then 1 else 0) := by
  unfold viewsOf
  rw [find?_incrementViews]
  cases hf : db.find? (fun p => p.id == pid) with
  | none => rfl
  | some p =>
    have hp : p.id = pid := by
      have hb := List.find?_some hf
      rwa [beq_iff_eq] at hb
    by_cases ht : t = pid
    · simp [hp, ht]
    · have hpt : ¬(p.id = t) := by rw [hp]; exact fun hh => ht hh.symm
      simp [hpt, ht]

/-- Auxiliary: final stored views after any sequence of atomic store
statements equals the initial value plus the number of increment
statements targeting the row. -/
theorem viewsOf_runBlogOps (ops : List BlogOp) (db : DB) (pid : Int) :
    viewsOf (runBlogOps db ops) pid
      = (viewsOf db pid).map
          (fun v => v + (ops.count (BlogOp.upd pid) : Int)) := by
  induction ops generalizing db with
  | nil =>
    cases h : viewsOf db pid <;> simp [runBlogOps, h]
  | cons op ops ih =>
    have hstep : runBlogOps db (op :: ops) = runBlogOps (applyBlogOp db op) ops := rfl
    rw [hstep]
    cases op with
    | fetch t =>
      rw [show applyBlogOp db (BlogOp.fetch t) = db from rfl, ih]
      cases h : viewsOf db pid <;> simp [List.count_cons, h]
    | upd t =>
      rw [show applyBlogOp db (BlogOp.upd t) = incrementViews db t from rfl, ih,
        viewsOf_incrementViews]
      cases viewsOf db pid with
      | none => rfl
      | some v =>
        by_cases ht : t = pid
        · simp [List.count_cons, ht]
          omega
        · simp [List.count_cons, ht]

/-- Auxiliary: filtering by an id after the increment statement for that
id yields the incremented matching rows. -/
theorem filter_incrementViews (db : DB) (pid : Int) :
    (incrementViews db pid).filter (fun p => p.id == pid)
      = (db.filter (fun p => p.id == pid)).map
          (fun p => { p with views := p.views + 1 }) := by
  induction db with
  | nil => rfl
  | cons p db ih =>
    have hcons : incrementViews (p :: db) pid
        = (if p.id == pid then { p with views := p.views + 1 } else p)
            :: incrementViews db pid := rfl
    rw [hcons]
    by_cases hp : p.id = pid
    · rw [if_pos (by rw [beq_iff_eq]; exact hp)]
      rw [List.filter_cons, if_pos (by simp [hp]),
        List.filter_cons, if_pos (by simp [hp])]
      rw [List.map_cons, ih]
    · rw [if_neg (by rw [beq_iff_eq]; exact hp)]
      rw [List.filter_cons, if_neg (by simp [hp]),
        List.filter_cons, if_neg (by simp [hp])]
      exact ih

/-- Auxiliary: in a table whose ids are pairwise distinct (the
primary-key constraint), filtering by the id of a member returns exactly
that member. -/
theorem filter_id_single (db : DB) (hnd : (db.map Post.id).Nodup)
    (p : Post) (hp : p ∈ db) :
    db.filter (fun q => q.id == p.id) = [p] := by
  induction db with
  | nil => cases hp
  | cons q db ih =>
    rw [List.map_cons, List.nodup_cons] at hnd
    rcases List.mem_cons.mp hp with h | h
    · subst h
      rw [List.filter_cons, if_pos (by simp)]
      have hnil : db.filter (fun r => r.id == p.id) = [] := by
        rw [List.filter_eq_nil_iff]
        intro r hr hb
        rw [beq_iff_eq] at hb
        exact hnd.1 (hb ▸ List.mem_map_of_mem Post.id hr)
      rw [hnil]
    · have hne : ¬((q.id == p.id) = true) := by
        rw [beq_iff_eq]
        intro he
        exact hnd.1 (he ▸ List.mem_map_of_mem Post.id h)
      rw [List.filter_cons, if_neg hne]
      exact ih hnd.2 h

/-- Auxiliary: the fetch following the increment returns the incremented
row, under the primary-key uniqueness constraint. -/
theorem getOne_incrementViews (db : DB) (hnd : (db.map Post.id).Nodup)
    (p : Post) (hp : p ∈ db) :
    getOne (incrementViews db p.id) p.id = .ok { p with views := p.views + 1 } := by
  unfold getOne
  rw [filter_incrementViews, filter_id_single db hnd p hp]
  rfl

/-- Auxiliary: the increment statement leaves a table with no matching
row unchanged. -/
theorem incrementViews_no_match (db : DB) (pid : Int)
    (h : ∀ p ∈ db, p.id ≠ pid) : incrementViews db pid = db := by
  induction db with
  | nil => rfl
  | cons p db ih =>
    have hcons : incrementViews (p :: db) pid
        = (if p.id == pid then { p with views := p.views + 1 } else p)
            :: incrementViews db pid := rfl
    rw [hcons, if_neg (by rw [beq_iff_eq]; exact h p (List.mem_cons_self p db)),
      ih (fun q hq => h q (List.mem_cons_of_mem p hq))]

/-- Auxiliary: fetching an absent id raises `DoesNotExist`. -/
theorem getOne_no_match (db : DB) (pid : Int)
    (h : ∀ p ∈ db, p.id ≠ pid) : getOne db pid = .error .doesNotExist := by
  unfold getOne
  have hnil : db.filter (fun p => p.id == pid) = [] := by
    rw [List.filter_eq_nil_iff]
    intro r hr hb
    rw [beq_iff_eq] at hb
    exact h r hr hb
  rw [hnil]

/-- Auxiliary: the effect of one increment statement on the whole views
column: the matching rows gain exactly 1, all others are untouched. -/
theorem map_views_incrementViews (db : DB) (pid : Int) :
    (incrementViews db pid).map Post.views
      = db.map (fun p => p.views + if p.id = pid then 1 else 0) := by
  induction db with
  | nil => rfl
  | cons p db ih =>
    have hcons : incrementViews (p :: db) pid
        = (if p.id == pid then { p with views := p.views + 1 } else p)
            :: incrementViews db pid := rfl
    rw [hcons, List.map_cons, List.map_cons, ih]
    by_cases hp : p.id = pid
    · simp [hp]
    · simp [hp]

/-- Auxiliary: the blog startup body leaves a store already holding a
row with id 1 unchanged (the create raises `IntegrityError`, which the
bare except branch swallows). -/
theorem blogInit_of_exists (db : DB) (h : ∃ p ∈ db, p.id = 1) :
    lifespanInit db = db := by
  obtain ⟨p, hp, hid⟩ := h
  have hany : db.any (fun p => p.id == 1) = true :=
    List.any_eq_true.mpr ⟨p, hp, by rw [beq_iff_eq]; exact hid⟩
  simp [lifespanInit, Post.create, hany]

/-- Auxiliary: running the blog startup body twice is the same as
running it once. -/
theorem blogInit_idem (db : DB) :
    lifespanInit (lifespanInit db) = lifespanInit db := by
  apply blogInit_of_exists
  by_cases hany : db.any (fun p => p.id == 1) = true
  · have heq : lifespanInit db = db := by simp [lifespanInit, Post.create, hany]
    rw [heq]
    obtain ⟨p, hp, hb⟩ := List.any_eq_true.mp hany
    exact ⟨p, hp, by rwa [beq_iff_eq] at hb⟩
  · have heq : lifespanInit db
        = db ++ [⟨1, "Example blog post", "Hello! This is a blog post", 0⟩] := by
      simp [lifespanInit, Post.create, hany]
    rw [heq]
    exact ⟨⟨1, "Example blog post", "Hello! This is a blog post", 0⟩, by simp, rfl⟩

end BlogViews

namespace GameShop

/-- Auxiliary: the upgrade handler, as written with the `money_gte`
kwarg, always raises `FieldError` ("Unknown filter param") from the
awaited update and leaves the store untouched, for every store and every
requested id. -/
theorem upgrade_level_const (db : DB) (pid : Int) :
    upgrade_level db pid = (db, .error (.fieldError "money_gte")) := rfl

/-- Auxiliary: the shop startup body leaves a store already holding a
row with id 1 unchanged. -/
theorem shopInit_of_exists (db : DB) (h : ∃ p ∈ db, p.id = 1) :
    lifespanInit db = db := by
  obtain ⟨p, hp, hid⟩ := h
  have hany : db.any (fun p => p.id == 1) = true :=
    List.any_eq_true.mpr ⟨p, hp, by rw [beq_iff_eq]; exact hid⟩
  simp [lifespanInit, Player.create, hany]

/-- Auxiliary: running the shop startup body twice is the same as
running it once. -/
theorem shopInit_idem (db : DB) :
    lifespanInit (lifespanInit db) = lifespanInit db := by
  apply shopInit_of_exists
  by_cases hany : db.any (fun p => p.id == 1) = true
  · have heq : lifespanInit db = db := by simp [lifespanInit, Player.create, hany]
    rw [heq]
    obtain ⟨p, hp, hb⟩ := List.any_eq_true.mp hany
    exact ⟨p, hp, by rwa [beq_iff_eq] at hb⟩
  · have heq : lifespanInit db = db ++ [⟨1, "Alice", 1000, 1⟩] := by
      simp [lifespanInit, Player.create, hany]
    rw [heq]
    exact ⟨⟨1, "Alice", 1000, 1⟩, by simp, rfl⟩

end GameShop

/-- C1: the claim states that POST /upgrade/(id) executes one
store-evaluated conditional update selecting the rows with
id = given_id and money >= COST, debiting and incrementing them and
returning the affected count (0 or 1).  In the source the filter kwarg
on line 92 of `02-game-shop/worker.py` is spelled `money_gte` (single
underscore), which is not a filter parameter of the Player model, so the
awaited update raises FieldError ("Unknown filter param") before any
conditional update reaches the store: evaluated on the startup store,
the handler propagates that error and modifies nothing, instead of
returning an affected count. -/
theorem upgrade_level_raises_unknown_filter_param :
    GameShop.upgrade_level GameShop.initialPlayers 1
      = (GameShop.initialPlayers, .error (.fieldError "money_gte")) := rfl

/-- C2: the claim states that with cost 150 and initial balance 1000,
exactly floor(1000/150) = 6 of a run of sequential debit requests
succeed and the final balance is 1000 - 6*150.  On the code as written,
seven sequential upgrade calls against the startup store all raise the
FieldError, zero succeed, and the store (balance 1000) is unchanged,
although floor of the balance by COST is 6. -/
theorem sequential_upgrades_never_debit :
    GameShop.runUpgrades 7 GameShop.initialPlayers 1 = (GameShop.initialPlayers, 0) ∧
    GameShop.moneyOf GameShop.initialPlayers 1 = some 1000 ∧
    (1000 : Int) / GameShop.COST = 6 := by decide

/-- C3: the claim states that a debit against a row with balance below
COST is rejected with an affected count of 0, leaving money and level
unchanged.  On the code as written the update raises the FieldError
instead: the row (money 100 < 150) is indeed unchanged, but the request
fails with a propagated exception, not with a zero-affected-rows
rejection. -/
theorem upgrade_insufficient_balance_raises :
    GameShop.upgrade_level [⟨1, "Alice", 100, 1⟩] 1
      = ([⟨1, "Alice", 100, 1⟩], .error (.fieldError "money_gte")) := rfl

/-- C4: the claim's scenario expects money 1000, level 1, six successful
sequential debits ending at money 100, level 7, and a seventh rejected
with the "Not enough money" response.  On the code as written, six
sequential upgrade calls succeed zero times and leave money 1000 and
level 1, and the seventh call raises the FieldError rather than
returning the structured rejection. -/
theorem upgrade_scenario_diverges :
    GameShop.runUpgrades 6 GameShop.initialPlayers 1 = (GameShop.initialPlayers, 0) ∧
    GameShop.moneyOf (GameShop.runUpgrades 6 GameShop.initialPlayers 1).1 1 = some 1000 ∧
    GameShop.levelOf (GameShop.runUpgrades 6 GameShop.initialPlayers 1).1 1 = some 1 ∧
    (GameShop.upgrade_level (GameShop.runUpgrades 6 GameShop.initialPlayers 1).1 1).2
      = .error (.fieldError "money_gte") :=
  ⟨rfl, rfl, rfl, rfl⟩

/-- C5: the claim states that a zero-affected-rows result of the
conditional update is surfaced as the structured "Not enough money"
response and never as a raised transport-level error.  On the code as
written the handler's result is, for every store and every id, the
propagated FieldError; in particular the insufficient-balance store that
should exercise the structured rejection gets the exception instead, and
the "Not enough money" response is unreachable. -/
theorem not_enough_money_response_unreachable :
    (∀ (db : GameShop.DB) (pid : Int),
      (GameShop.upgrade_level db pid).2 = .error (.fieldError "money_gte")) ∧
    (GameShop.upgrade_level [⟨1, "Alice", 100, 1⟩] 1).2
      ≠ .ok GameShop.UpgradeResponse.notEnoughMoney :=
  ⟨fun db pid => congrArg Prod.snd (GameShop.upgrade_level_const db pid),
   fun h => nomatch h⟩

set_option maxRecDepth 8192 in
/-- C6: a single increment call followed immediately by a read, with no
interference, returns a views value exactly one greater than the
pre-call value (for any store satisfying the primary-key uniqueness
constraint and any row in it), and 100 sequential increment calls
starting from the startup store (views 0) leave views at 100. -/
theorem view_then_read_increments_by_one (db : BlogViews.DB)
    (hnd : (db.map BlogViews.Post.id).Nodup)
    (p : BlogViews.Post) (hp : p ∈ db) :
    (BlogViews.view_post db p.id).2 = .ok (p.views + 1) ∧
    BlogViews.viewsOf (BlogViews.viewPostN 100 BlogViews.initialPosts 1) 1 = some 100 := by
  refine ⟨?_, by decide⟩
  show ((BlogViews.getOne (BlogViews.incrementViews db p.id) p.id).map BlogViews.Post.views)
      = .ok (p.views + 1)
  rw [BlogViews.getOne_incrementViews db hnd p hp]
  rfl

/-- Witness for the C6 theorem at the startup store and its post with
id 1 and views 0. -/
theorem view_then_read_increments_by_one_witness :
    (BlogViews.view_post BlogViews.initialPosts 1).2 = .ok ((0 : Int) + 1) ∧
    BlogViews.viewsOf (BlogViews.viewPostN 100 BlogViews.initialPosts 1) 1 = some 100 :=
  view_then_read_increments_by_one BlogViews.initialPosts (by decide)
    ⟨1, "Example blog post", "Hello! This is a blog post", 0⟩ (by decide)

/-- C7: for any initial store, any row id and any interleaving of atomic
store statements (each concurrent increment request contributes exactly
one atomic increment statement for its row, plus non-mutating fetches),
the final stored counter equals the initial value plus the number of
increment statements for that row: no increment is lost, none is
double-counted. -/
theorem concurrent_increments_never_lost (db : BlogViews.DB)
    (ops : List BlogViews.BlogOp) (pid : Int) :
    BlogViews.viewsOf (BlogViews.runBlogOps db ops) pid
      = (BlogViews.viewsOf db pid).map
          (fun v => v + (ops.count (BlogViews.BlogOp.upd pid) : Int)) :=
  BlogViews.viewsOf_runBlogOps ops db pid

/-- C8: invoking the startup row-creation logic of either service
against a store that already contains the row with id 1 leaves every row
unchanged (the create raises IntegrityError, swallowed by the bare
except branch; the embedding being a total function into the store type
records that no failure escapes), and a second invocation after a first
one changes nothing, for both services. -/
theorem startup_row_creation_idempotent :
    (∀ db : BlogViews.DB, (∃ p ∈ db, p.id = 1) → BlogViews.lifespanInit db = db) ∧
    (∀ db : BlogViews.DB,
      BlogViews.lifespanInit (BlogViews.lifespanInit db) = BlogViews.lifespanInit db) ∧
    (∀ db : GameShop.DB, (∃ p ∈ db, p.id = 1) → GameShop.lifespanInit db = db) ∧
    (∀ db : GameShop.DB,
      GameShop.lifespanInit (GameShop.lifespanInit db) = GameShop.lifespanInit db) :=
  ⟨BlogViews.blogInit_of_exists, BlogViews.blogInit_idem,
   GameShop.shopInit_of_exists, GameShop.shopInit_idem⟩

/-- Witness for the C8 theorem at the two startup stores, which contain
the row with id 1. -/
theorem startup_row_creation_idempotent_witness :
    BlogViews.lifespanInit BlogViews.initialPosts = BlogViews.initialPosts ∧
    GameShop.lifespanInit GameShop.initialPlayers = GameShop.initialPlayers :=
  ⟨startup_row_creation_idempotent.1 BlogViews.initialPosts (by decide),
   startup_row_creation_idempotent.2.2.1 GameShop.initialPlayers (by decide)⟩

/-- C9: the claim states that views increases by exactly 1 per increment
request and that level is monotonically non-decreasing, incremented
exactly once per successful debit.  The views half holds: each increment
request adds exactly 1 to the views of the rows with the requested id
and touches no other row.  The level half degenerates on the code as
written: because the upgrade update always raises the FieldError, the
debit that the claim's spec expects to succeed (startup store, money
1000 >= 150) leaves the store untouched, no debit ever succeeds, and
level can never be incremented at all. -/
theorem level_frozen_by_filter_bug :
    (∀ (db : BlogViews.DB) (pid : Int),
      ((BlogViews.view_post db pid).1).map BlogViews.Post.views
        = db.map (fun p => p.views + if p.id = pid then 1 else 0)) ∧
    (GameShop.upgrade_level GameShop.initialPlayers 1).1 = GameShop.initialPlayers ∧
    GameShop.isSuccess (GameShop.upgrade_level GameShop.initialPlayers 1).2 = false :=
  ⟨fun db pid => BlogViews.map_views_incrementViews db pid, rfl, rfl⟩

/-- C10: a POST /view/(id) request for an id with no corresponding row
modifies no row (the update matches nothing) and then fails with the
not-found error raised by the follow-up fetch, rather than returning a
views value; the store is unchanged. -/
theorem view_post_missing_row_not_found (db : BlogViews.DB) (pid : Int)
    (h : ∀ p ∈ db, p.id ≠ pid) :
    BlogViews.view_post db pid = (db, .error .doesNotExist) := by
  show (BlogViews.incrementViews db pid,
      (BlogViews.getOne (BlogViews.incrementViews db pid) pid).map BlogViews.Post.views)
    = (db, .error .doesNotExist)
  rw [BlogViews.incrementViews_no_match db pid h]
  rw [BlogViews.getOne_no_match db pid h]
  rfl

/-- Witness for the C10 theorem: the startup store has no row with id 2,
and a view request for id 2 leaves it unchanged and reports
DoesNotExist. -/
theorem view_post_missing_row_not_found_witness :
    BlogViews.view_post BlogViews.initialPosts 2
      = (BlogViews.initialPosts, .error .doesNotExist) :=
  view_post_missing_row_not_found BlogViews.initialPosts 2 (by decide)
